import Mathlib

/-!
Verification of the chat relay handler in `src/lambda/index.py`.

The handler receives an HTTP-gateway event, parses its JSON body, forwards
the user message to a remote generation endpoint, and maps the outcome to a
structured JSON response.  We embed the handler shallowly:

* JSON values are modelled by the inductive `Json` (numbers as rationals,
  objects as association lists; `json.loads` on well-formed input yields a
  dict with unique keys, so first-match lookup coincides with dict lookup).
* The result of `json.loads(event["body"])` is an explicit `BodyParse`
  parameter: the subscript on a missing key, a decode failure, or a parsed
  value.  This keeps the Python exception paths explicit without modelling
  a JSON grammar.
* The outbound HTTP call is an oracle `service : Json → CallOutcome`,
  applied to the serialized payload; `CallOutcome` covers a 2xx reply
  (with its own parse result), an `HTTPError`, and a `URLError`.  The
  `except HTTPError` clause additionally runs `error.read().decode('utf-8')`,
  a step that can itself raise and escape the handler; `CallOutcomeRaw`
  and `lambda_handler_checked` model that step explicitly, the latter
  returning `Except` to distinguish a normal return from an escape.
* A `HandlerResult` carries the body as the `Json` value handed to
  `json.dumps`; serializing a finite dict of serializable values always
  yields a well-formed JSON string, so well-formedness of the body is
  represented by membership in `Json`.
* Python truthiness tests (`if not assistant_response`) are modelled by
  `Json.falsy`.
* The module-global `bedrock_client` is threaded as explicit state through
  `lambda_handler_warm` and sequences of invocations.
-/

/-- JSON values, the common type of event bodies, payloads and responses. -/
inductive Json where
  | null
  | bool (b : Bool)
  | num (q : ℚ)
  | str (s : String)
  | arr (xs : List Json)
  | obj (kvs : List (String × Json))

/-- Lookup of a key in a parsed JSON object (Python dict subscript / get). -/
def lookupKey (kvs : List (String × Json)) (k : String) : Option Json :=
  match kvs with
  | [] => none
  | (k₁, v) :: rest => if k₁ = k then some v else lookupKey rest k

/-- Lookup of a key on an arbitrary JSON value; `none` on non-objects. -/
def jsonGet (j : Json) (k : String) : Option Json :=
  match j with
  | .obj kvs => lookupKey kvs k
  | _ => none

/-- Python truthiness of a JSON value: `if not x` takes the `not` branch
exactly when `falsy x` holds. -/
def Json.falsy : Json → Bool
  | .null => true
  | .bool b => !b
  | .num q => decide (q = 0)
  | .str s => s.isEmpty
  | .arr xs => xs.isEmpty
  | .obj kvs => kvs.isEmpty

/-- Regex group of `re.search` with the source pattern: the literal part
`arn:aws:lambda:` spelled as characters. -/
def litChars : List Char :=
  ['a', 'r', 'n', ':', 'a', 'w', 's', ':', 'l', 'a', 'm', 'b', 'd', 'a', ':']

/-- Attempt of the pattern at one position: the literal must match here,
then the group takes the maximal colon-free run, which must be nonempty and
followed by a colon (the greedy run of the regex cannot backtrack into a
successful match otherwise). -/
def matchAt (l : List Char) : Option (List Char) :=
  if litChars.isPrefixOf l then
    let rest := l.drop litChars.length
    let run := rest.takeWhile (fun c => c ≠ ':')
    if 0 < run.length ∧ run.length < rest.length then some run else none
  else none

/-- Leftmost search of the pattern, as `re.search` performs it: try each
position from the left, return the first group that matches. -/
def reSearch : List Char → Option (List Char)
  | [] => none
  | c :: rest =>
    match matchAt (c :: rest) with
    | some g => some g
    | none => reSearch rest

/-- Embedding of `extract_region_from_arn`: the group of
`re.search` with pattern `arn:aws:lambda:` followed by a captured colon-free
run and a colon, with the fixed fallback region. -/
def extract_region_from_arn (arn : String) : String :=
  match reSearch arn.toList with
  | some g => String.mk g
  | none => "us-east-1"

/-- Whether a pattern occurs (as prefix of some suffix) in a character list. -/
def occursIn (pat : List Char) : List Char → Bool
  | [] => pat.isPrefixOf []
  | c :: rest => pat.isPrefixOf (c :: rest) || occursIn pat rest

/-- The fixed headers attached to every response variant of the handler. -/
def response_headers : List (String × String) :=
  [("Content-Type", "application/json"),
   ("Access-Control-Allow-Origin", "*"),
   ("Access-Control-Allow-Headers",
     "Content-Type,X-Amz-Date,Authorization,X-Api-Key,X-Amz-Security-Token"),
   ("Access-Control-Allow-Methods", "OPTIONS,POST")]

/-- Shape of the value a gateway handler returns: status code, headers, and
the JSON body (the value handed to `json.dumps`). -/
structure HandlerResult where
  statusCode : Nat
  headers : List (String × String)
  body : Json

/-- Result of evaluating `json.loads(event["body"])`: the event may lack the
`body` key, the string may fail to decode, or a JSON value is produced. -/
inductive BodyParse where
  | missing
  | invalid (msg : String)
  | parsed (j : Json)

/-- Outcome of the outbound POST as the except clauses observe it: a 2xx
reply whose bytes either decode to JSON or not, a non-2xx `HTTPError` with
code, reason and the already-decoded raw body text, or a network-level
`URLError` with its message.  `CallOutcomeRaw` below carries the
error-body read step itself, which can fail. -/
inductive CallOutcome where
  | success (parsedBody : Option Json)
  | httpError (code : Nat) (reason : String) (errorBody : String)
  | urlError (msg : String)

/-- The user turn appended before the outbound call. -/
def userTurn (message : Json) : Json :=
  .obj [("role", .str "user"), ("content", message)]

/-- The assistant turn appended on success. -/
def assistantTurn (t : Json) : Json :=
  .obj [("role", .str "assistant"), ("content", t)]

/-- The outbound payload `request_data` built by the handler: the raw
message as prompt together with the four literal generation constants. -/
def request_data (message : Json) : Json :=
  .obj [("prompt", message),
        ("max_new_tokens", .num 512),
        ("temperature", .num 0.7),
        ("top_p", .num 0.9),
        ("do_sample", .bool true)]

/-- The 200 response of the success path. -/
def success_response (assistant_response : Json) (messages : List Json) :
    HandlerResult :=
  ⟨200, response_headers,
   .obj [("success", .bool true),
         ("response", assistant_response),
         ("conversationHistory", .arr messages)]⟩

/-- The 500 response of the `except HTTPError` clause. -/
def http_error_response (code : Nat) (reason errorBody : String) :
    HandlerResult :=
  ⟨500, response_headers,
   .obj [("success", .bool false),
         ("error", .str ("API Error: " ++ toString code ++ " - " ++ reason)),
         ("details", .str errorBody)]⟩

/-- The fixed advisory string of the `except URLError` clause. -/
def url_error_suggestion : String :=
  "API endpoint may be unresponsive or too slow to respond within timeout limits."

/-- The 500 response of the `except URLError` clause. -/
def url_error_response (error_message : String) : HandlerResult :=
  ⟨500, response_headers,
   .obj [("success", .bool false),
         ("error", .str ("Connection Error: " ++ error_message)),
         ("suggestion", .str url_error_suggestion)]⟩

/-- The 500 response of the final `except Exception` clause, carrying the
string of the exception. -/
def generic_error_response (msg : String) : HandlerResult :=
  ⟨500, response_headers,
   .obj [("success", .bool false), ("error", .str msg)]⟩

/-- Embedding of `lambda_handler` for a single invocation.  The explicit
`event_body` parameter stands for the result of parsing the event body, the
`service` oracle for the remote endpoint.  Every Python exception raised
inside the `try` block that is neither an `HTTPError` nor a `URLError`
lands in the final generic clause; the message strings of the interpreter
exceptions are approximated where the source does not fix them. -/
def lambda_handler (event_body : BodyParse) (service : Json → CallOutcome) :
    HandlerResult :=
  match event_body with
  | .missing => generic_error_response "'body'"
  | .invalid msg => generic_error_response msg
  | .parsed bodyJson =>
    match bodyJson with
    | .obj kvs =>
      match lookupKey kvs "message" with
      | none => generic_error_response "'message'"
      | some message =>
        match (lookupKey kvs "conversationHistory").getD (.arr []) with
        | .arr conversation_history =>
          let messages := conversation_history ++ [userTurn message]
          match service (request_data message) with
          | .httpError code reason errorBody =>
            http_error_response code reason errorBody
          | .urlError error_message => url_error_response error_message
          | .success none =>
            generic_error_response "Expecting value: line 1 column 1 (char 0)"
          | .success (some response_body) =>
            match response_body with
            | .obj rkvs =>
              let assistant_response :=
                (lookupKey rkvs "generated_text").getD (.str "")
              if assistant_response.falsy then
                generic_error_response "No response content from the model"
              else
                success_response assistant_response
                  (messages ++ [assistantTurn assistant_response])
            | _ =>
              generic_error_response "'list' object has no attribute 'get'"
        | _ =>
          generic_error_response "'int' object has no attribute 'copy'"
    | _ =>
      generic_error_response "string indices must be integers"

/-- The payload the handler passes to the outbound call, when the call is
reached at all on the given parsed body. -/
def outbound_payload (event_body : BodyParse) : Option Json :=
  match event_body with
  | .parsed (.obj kvs) =>
    match lookupKey kvs "message" with
    | some message =>
      match (lookupKey kvs "conversationHistory").getD (.arr []) with
      | .arr _ => some (request_data message)
      | _ => none
    | none => none
  | _ => none

/-- Whether a JSON value is an object carrying the `message` key. -/
def hasMessageKey : Json → Bool
  | .obj kvs => (lookupKey kvs "message").isSome
  | _ => false

/-- Outcome of the outbound POST with the error-body read left undone: on a
non-2xx `HTTPError` the source still has to run `error.read().decode('utf-8')`
inside the except clause, and that step can itself raise (the bytes may not
be valid UTF-8, or the read may fail).  `errorBodyRead` is that step's
outcome: the decoded text, or `none` when it raises.  `CallOutcome` is the
view of this type on which the read step succeeded. -/
inductive CallOutcomeRaw where
  | success (parsedBody : Option Json)
  | httpError (code : Nat) (reason : String) (errorBodyRead : Option String)
  | urlError (msg : String)

/-- The exception escaping `lambda_handler` when the HTTP error body fails
to decode (message approximated; the source does not fix it). -/
def unicode_decode_error : String :=
  "UnicodeDecodeError: invalid start byte"

/-- Embedding of `lambda_handler` with the `except HTTPError` clause taken
at full fidelity: the clause body runs `error.read().decode('utf-8')`, and
an exception raised there is not caught by the sibling except clauses of
the same try statement, so it escapes the handler.  `Except.error` is that
escape; every other path returns (`Except.ok`) exactly as `lambda_handler`
does. -/
def lambda_handler_checked (event_body : BodyParse)
    (service : Json → CallOutcomeRaw) : Except String HandlerResult :=
  match event_body with
  | .missing => .ok (generic_error_response "'body'")
  | .invalid msg => .ok (generic_error_response msg)
  | .parsed bodyJson =>
    match bodyJson with
    | .obj kvs =>
      match lookupKey kvs "message" with
      | none => .ok (generic_error_response "'message'")
      | some message =>
        match (lookupKey kvs "conversationHistory").getD (.arr []) with
        | .arr conversation_history =>
          let messages := conversation_history ++ [userTurn message]
          match service (request_data message) with
          | .httpError code reason (some error_body) =>
            .ok (http_error_response code reason error_body)
          | .httpError _ _ none => .error unicode_decode_error
          | .urlError error_message => .ok (url_error_response error_message)
          | .success none =>
            .ok (generic_error_response
              "Expecting value: line 1 column 1 (char 0)")
          | .success (some response_body) =>
            match response_body with
            | .obj rkvs =>
              let assistant_response :=
                (lookupKey rkvs "generated_text").getD (.str "")
              if assistant_response.falsy then
                .ok (generic_error_response
                  "No response content from the model")
              else
                .ok (success_response assistant_response
                  (messages ++ [assistantTurn assistant_response]))
            | _ =>
              .ok (generic_error_response
                "'list' object has no attribute 'get'")
        | _ =>
          .ok (generic_error_response "'int' object has no attribute 'copy'")
    | _ =>
      .ok (generic_error_response "string indices must be integers")

/-- The view of a raw outcome once the error-body read has succeeded;
`none` when that read raises. -/
def decodeOutcome : CallOutcomeRaw → Option CallOutcome
  | .success p => some (.success p)
  | .httpError c r (some d) => some (.httpError c r d)
  | .httpError _ _ none => none
  | .urlError m => some (.urlError m)

/-- The invocation context, of which the handler reads only the function
identifier string. -/
structure Context where
  invoked_function_arn : String

/-- The handle built by `boto3.client`, recorded with the arguments of its
construction. -/
structure Client where
  service_name : String
  region_name : String

/-- Constructor call `boto3.client` with a service name and a region. -/
def boto3_client (service_name region_name : String) : Client :=
  ⟨service_name, region_name⟩

/-- The lazy-initialization step at the top of `lambda_handler`: when the
process-wide handle is `none`, derive the region from the context and build
the client; otherwise leave it untouched.  The boolean records whether a
construction happened in this invocation. -/
def init_bedrock_client (bedrock_client : Option Client) (context : Context) :
    Option Client × Bool :=
  match bedrock_client with
  | some c => (some c, false)
  | none =>
    (some (boto3_client "bedrock-runtime"
      (extract_region_from_arn context.invoked_function_arn)), true)

/-- One invocation of the handler: its context, parsed event body, and the
remote endpoint behaviour for this call. -/
structure Invocation where
  context : Context
  event_body : BodyParse
  service : Json → CallOutcome

/-- One invocation on a warm process: the global handle state is threaded
explicitly; the step returns the new state, whether a client construction
occurred, and the handler result. -/
def lambda_handler_warm (st : Option Client) (inv : Invocation) :
    Option Client × Bool × HandlerResult :=
  match init_bedrock_client st inv.context with
  | (st₁, constructed) =>
    (st₁, constructed, lambda_handler inv.event_body inv.service)

/-- A sequence of invocations on one warm process: final handle state and
the total number of client constructions performed. -/
def run_invocations (st : Option Client) : List Invocation → Option Client × Nat
  | [] => (st, 0)
  | inv :: rest =>
    match lambda_handler_warm st inv with
    | (st₁, constructed, _) =>
      match run_invocations st₁ rest with
      | (stFin, n) => (stFin, (if constructed then 1 else 0) + n)

/-- Mutation primitives the handler applies to list objects: `copy` binds
the destination reference to a fresh copy of the source list, `append`
mutates the destination list in place. -/
inductive ListOp where
  | copy (src dst : Nat)
  | append (dst : Nat) (v : Json)

/-- Effect of one list operation on a store of list objects, indexed by
reference. -/
def applyOp (s : Nat → List Json) : ListOp → (Nat → List Json)
  | .copy src dst => fun r => if r = dst then s src else s r
  | .append dst v => fun r => if r = dst then s dst ++ [v] else s r

/-- Running a sequence of list operations on a store. -/
def runOps (s : Nat → List Json) : List ListOp → (Nat → List Json)
  | [] => s
  | op :: rest => runOps (applyOp s op) rest

/-- The list operations the handler performs on conversation lists, with
reference 0 the caller's `conversationHistory` object and reference 1 the
fresh `messages` object: `messages = conversation_history.copy()`, then
`messages.append(user turn)`, and on the success path
`messages.append(assistant turn)`.  No operation ever targets reference 0. -/
def history_ops (message assistant_response : Json) (success : Bool) :
    List ListOp :=
  [.copy 0 1, .append 1 (userTurn message)] ++
    (if success then [.append 1 (assistantTurn assistant_response)] else [])

/-! Helper lemmas about the regex search. -/

/-- Sanity: `litChars` is the character sequence of the pattern literal. -/
theorem litChars_eq : litChars = "arn:aws:lambda:".toList := by decide

/-- A list is a prefix of itself followed by anything. -/
theorem isPrefixOf_self_append (p x : List Char) :
    p.isPrefixOf (p ++ x) = true := by
  induction p with
  | nil => simp [List.isPrefixOf]
  | cons a as ih => simp [List.isPrefixOf, ih]

/-- The greedy colon-free run of a colon-free list followed by a colon is
the list itself. -/
theorem takeWhile_colon_append (rl tail : List Char) (h : ∀ c ∈ rl, c ≠ ':') :
    (rl ++ ':' :: tail).takeWhile (fun c => c ≠ ':') = rl := by
  induction rl with
  | nil => simp [List.takeWhile]
  | cons a as ih =>
    have ha : a ≠ ':' := h a (by simp)
    have ih₁ := ih (fun c hc => h c (by simp [hc]))
    show List.takeWhile _ (a :: (as ++ ':' :: tail)) = a :: as
    rw [List.takeWhile_cons_of_pos (by simp [ha]), ih₁]

/-- At a position where the literal is followed by a nonempty colon-free
run and a colon, the pattern matches and captures the run. -/
theorem matchAt_lit (rl tail : List Char) (hne : rl ≠ [])
    (h : ∀ c ∈ rl, c ≠ ':') :
    matchAt (litChars ++ (rl ++ ':' :: tail)) = some rl := by
  unfold matchAt
  rw [isPrefixOf_self_append]
  simp only [if_true, List.drop_left]
  rw [takeWhile_colon_append rl tail h]
  have h₁ : 0 < rl.length := List.length_pos.mpr hne
  have h₂ : rl.length < (rl ++ ':' :: tail).length := by
    simp [List.length_append]
  simp [h₁, h₂]

/-- A match at the head position decides the search. -/
theorem reSearch_of_matchAt (l g : List Char) (h : matchAt l = some g) :
    reSearch l = some g := by
  cases l with
  | nil =>
    rw [show matchAt [] = none from rfl] at h
    exact absurd h (by simp)
  | cons c rest => simp [reSearch, h]

/-- When the literal occurs nowhere in the list, the search fails. -/
theorem reSearch_none_of_not_occurs (l : List Char)
    (h : occursIn litChars l = false) : reSearch l = none := by
  induction l with
  | nil => rfl
  | cons c rest ih =>
    rw [occursIn] at h
    simp only [Bool.or_eq_false_iff] at h
    have hm : matchAt (c :: rest) = none := by
      unfold matchAt
      rw [h.1]
      rfl
    simp [reSearch, hm, ih h.2]

/-- An identifier beginning with the literal, a nonempty colon-free region
and a colon yields that region. -/
theorem extract_region_ok (r rest : String) (hne : r.toList ≠ [])
    (h : ∀ c ∈ r.toList, c ≠ ':') :
    extract_region_from_arn ("arn:aws:lambda:" ++ r ++ ":" ++ rest) = r := by
  have hl : ("arn:aws:lambda:" ++ r ++ ":" ++ rest).toList
      = litChars ++ (r.toList ++ ':' :: rest.toList) := by
    simp [String.toList, litChars]
  unfold extract_region_from_arn
  rw [hl, reSearch_of_matchAt _ _ (matchAt_lit r.toList rest.toList hne h)]
  rfl

/-- An identifier in which the literal `arn:aws:lambda:` occurs nowhere
falls back to the default region. -/
theorem extract_region_fallback (arn : String)
    (h : occursIn litChars arn.toList = false) :
    extract_region_from_arn arn = "us-east-1" := by
  unfold extract_region_from_arn
  rw [reSearch_none_of_not_occurs arn.toList h]

/-- C3, counterexample: the claim promises the fourth colon-delimited
segment for every identifier of the form `arn:aws:<service>:<region>:...`,
but on the service `ec2` the code's pattern (which hard-codes the service
`lambda`) does not match, and the default region is returned instead of
the fourth segment `eu-west-1`. -/
theorem C3_counterexample :
    extract_region_from_arn "arn:aws:ec2:eu-west-1:123:function:f"
        = "us-east-1" ∧
    extract_region_from_arn "arn:aws:ec2:eu-west-1:123:function:f"
        ≠ "eu-west-1" := by
  constructor
  · decide
  · decide

/-- C3, amended: the pattern fixes the service to `lambda`.  For every
identifier beginning `arn:aws:lambda:` followed by a nonempty colon-free
region and a colon, `extract_region_from_arn` returns that region; for
every identifier in which the substring `arn:aws:lambda:` does not occur
at all, it returns the fixed default region `us-east-1`.  In particular
`arn:aws:lambda:ap-northeast-1:123:function:f` yields `ap-northeast-1`
and a malformed identifier yields the default. -/
theorem C3_region_amended (r rest arn₂ : String) (hne : r.toList ≠ [])
    (hc : ∀ c ∈ r.toList, c ≠ ':')
    (hocc : occursIn litChars arn₂.toList = false) :
    extract_region_from_arn ("arn:aws:lambda:" ++ r ++ ":" ++ rest) = r ∧
    extract_region_from_arn arn₂ = "us-east-1" :=
  ⟨extract_region_ok r rest hne hc, extract_region_fallback arn₂ hocc⟩

/-- C3, witness: the amended statement evaluated on the spec's two
examples, the well-formed lambda identifier and a malformed identifier. -/
theorem C3_region_amended_witness :
    (("ap-northeast-1" : String).toList ≠ [] ∧
      (∀ c ∈ ("ap-northeast-1" : String).toList, c ≠ ':') ∧
      occursIn litChars ("not-an-arn" : String).toList = false) ∧
    (extract_region_from_arn
        ("arn:aws:lambda:" ++ "ap-northeast-1" ++ ":" ++ "123:function:f")
        = "ap-northeast-1" ∧
      extract_region_from_arn "not-an-arn" = "us-east-1") :=
  ⟨⟨by decide, by decide, by decide⟩,
    C3_region_amended "ap-northeast-1" "123:function:f" "not-an-arn"
      (by decide) (by decide) (by decide)⟩

/-- On a warm process (handle already present) every invocation leaves the
handle untouched and performs no construction. -/
theorem run_invocations_warm (c : Client) (l : List Invocation) :
    run_invocations (some c) l = (some c, 0) := by
  induction l with
  | nil => rfl
  | cons inv rest ih =>
    simp [run_invocations, lambda_handler_warm, init_bedrock_client, ih]

/-- C9: across any sequence of invocations starting from an uninitialized
process, the first invocation constructs the client from the region derived
from its own context, exactly one construction ever happens, the final
handle is that first client, and an invocation that finds the handle
already set leaves it unchanged without constructing. -/
theorem C9_client_init_once (inv : Invocation) (rest : List Invocation) :
    (run_invocations none (inv :: rest)).1 =
      some (boto3_client "bedrock-runtime"
        (extract_region_from_arn inv.context.invoked_function_arn)) ∧
    (run_invocations none (inv :: rest)).2 = 1 ∧
    (∀ (c : Client) (ctx : Context),
      init_bedrock_client (some c) ctx = (some c, false)) := by
  refine ⟨?_, ?_, fun c ctx => rfl⟩ <;>
    simp [run_invocations, lambda_handler_warm, init_bedrock_client,
      run_invocations_warm]

/-- C10: the handler never mutates the caller's history object.  Running
the handler's list operations (copy the history into the fresh `messages`
object, append the user turn, and on success the assistant turn) on any
store leaves reference 0 — the caller's `conversationHistory` — exactly as
it was, while reference 1 receives the copied history plus the appended
turns. -/
theorem C10_history_not_mutated (s : Nat → List Json) (m a : Json)
    (success : Bool) :
    runOps s (history_ops m a success) 0 = s 0 ∧
    runOps s (history_ops m a success) 1 =
      s 0 ++ [userTurn m] ++
        (if success then [assistantTurn a] else []) := by
  cases success <;> simp [history_ops, runOps, applyOp]

/-- Every handler result is one of the four response builders of the
source: the generic 500, the HTTPError 500, the URLError 500, or the
success 200. -/
theorem handler_shape (bp : BodyParse) (service : Json → CallOutcome) :
    (∃ msg, lambda_handler bp service = generic_error_response msg) ∨
    (∃ c r d, lambda_handler bp service = http_error_response c r d) ∨
    (∃ m, lambda_handler bp service = url_error_response m) ∨
    (∃ a msgs, lambda_handler bp service = success_response a msgs) := by
  unfold lambda_handler
  repeat' split
  all_goals try dsimp only
  all_goals repeat' split
  all_goals first
    | exact Or.inl ⟨_, rfl⟩
    | exact Or.inr (Or.inl ⟨_, _, _, rfl⟩)
    | exact Or.inr (Or.inr (Or.inl ⟨_, rfl⟩))
    | exact Or.inr (Or.inr (Or.inr ⟨_, _, rfl⟩))

/-- A string other than the empty one is not `isEmpty`. -/
theorem String.isEmpty_false_of_ne (g : String) (h : g ≠ "") :
    g.isEmpty = false := by
  cases hg : g.isEmpty
  · rfl
  · exact absurd ((String.isEmpty_iff g).mp hg) h

/-- C1: when the event body parses to an object with a `message` and an
optional history list, and the outbound call succeeds with a JSON object
whose `generated_text` is a nonempty string g, the handler returns status
200 with `response` equal to g and `conversationHistory` equal to the
input history (empty when absent) followed by the user turn and the
assistant turn, in that order. -/
theorem C1_success (kvs : List (String × Json)) (m : Json) (hist : List Json)
    (g : String) (rkvs : List (String × Json)) (service : Json → CallOutcome)
    (hm : lookupKey kvs "message" = some m)
    (hh : (lookupKey kvs "conversationHistory").getD (.arr []) = .arr hist)
    (hs : service (request_data m) = .success (some (.obj rkvs)))
    (hg : lookupKey rkvs "generated_text" = some (.str g))
    (hne : g ≠ "") :
    lambda_handler (.parsed (.obj kvs)) service =
      success_response (.str g)
        (hist ++ [userTurn m] ++ [assistantTurn (.str g)]) ∧
    (lambda_handler (.parsed (.obj kvs)) service).statusCode = 200 ∧
    jsonGet (lambda_handler (.parsed (.obj kvs)) service).body "response"
        = some (.str g) ∧
    jsonGet (lambda_handler (.parsed (.obj kvs)) service).body
        "conversationHistory"
        = some (.arr (hist ++ [userTurn m] ++ [assistantTurn (.str g)])) := by
  have hF : (Json.str g).falsy = false := by
    simp [Json.falsy, String.isEmpty_false_of_ne g hne]
  have hmain : lambda_handler (.parsed (.obj kvs)) service =
      success_response (.str g)
        (hist ++ [userTurn m] ++ [assistantTurn (.str g)]) := by
    simp only [lambda_handler, hm]
    rw [hh]
    simp only [hs, hg, Option.getD, hF]
    simp [List.append_assoc]
  refine ⟨hmain, by rw [hmain]; rfl, by rw [hmain]; rfl, by rw [hmain]; rfl⟩


/-- The handler consults the remote service only at the outbound payload:
two services that agree there produce identical results. -/
theorem handler_service_congr (bp : BodyParse) (s₁ s₂ : Json → CallOutcome)
    (h : ∀ p, outbound_payload bp = some p → s₁ p = s₂ p) :
    lambda_handler bp s₁ = lambda_handler bp s₂ := by
  cases bp with
  | missing => rfl
  | invalid msg => rfl
  | parsed j =>
    cases j with
    | obj kvs =>
      cases hm : lookupKey kvs "message" with
      | none => simp [lambda_handler, hm]
      | some message =>
        cases hh : (lookupKey kvs "conversationHistory").getD (.arr []) with
        | arr conversation_history =>
          have hcall := h (request_data message) (by
            simp only [outbound_payload, hm]
            rw [hh])
          simp [lambda_handler, hm, hh, hcall]
        | null => simp [lambda_handler, hm, hh]
        | bool b => simp [lambda_handler, hm, hh]
        | num q => simp [lambda_handler, hm, hh]
        | str s => simp [lambda_handler, hm, hh]
        | obj kvs₂ => simp [lambda_handler, hm, hh]
    | null => rfl
    | bool b => rfl
    | num q => rfl
    | str s => rfl
    | arr xs => rfl

/-- C4: the serialized outbound payload is exactly the object with
`prompt` bound to the raw incoming message and the four literal constants
512, 0.7, 0.9 and true; the history in the request (here arbitrary) does
not influence it, and the handler depends on the service only through its
value at that payload. -/
theorem C4_payload (kvs : List (String × Json)) (m : Json) (hist : List Json)
    (s₁ s₂ : Json → CallOutcome)
    (hm : lookupKey kvs "message" = some m)
    (hh : (lookupKey kvs "conversationHistory").getD (.arr []) = .arr hist)
    (hsv : s₁ (request_data m) = s₂ (request_data m)) :
    outbound_payload (.parsed (.obj kvs)) = some (request_data m) ∧
    request_data m = Json.obj [("prompt", m), ("max_new_tokens", .num 512),
      ("temperature", .num 0.7), ("top_p", .num 0.9),
      ("do_sample", .bool true)] ∧
    lambda_handler (.parsed (.obj kvs)) s₁
      = lambda_handler (.parsed (.obj kvs)) s₂ := by
  have hp : outbound_payload (.parsed (.obj kvs)) = some (request_data m) := by
    simp only [outbound_payload, hm]
    rw [hh]
  refine ⟨hp, rfl, handler_service_congr _ s₁ s₂ ?_⟩
  intro p hpe
  rw [hp] at hpe
  have hq := Option.some.inj hpe
  exact hq ▸ hsv

/-- C5: when the remote service answers with a non-2xx HTTPError carrying
code c, reason r and raw body d, the handler returns status 500 with
`success` false, `error` equal to `API Error: c - r` and `details` equal
to d. -/
theorem C5_http_error (kvs : List (String × Json)) (m : Json)
    (hist : List Json) (c : Nat) (r d : String)
    (service : Json → CallOutcome)
    (hm : lookupKey kvs "message" = some m)
    (hh : (lookupKey kvs "conversationHistory").getD (.arr []) = .arr hist)
    (hs : service (request_data m) = .httpError c r d) :
    lambda_handler (.parsed (.obj kvs)) service = http_error_response c r d ∧
    http_error_response c r d = ⟨500, response_headers,
      .obj [("success", .bool false),
            ("error", .str ("API Error: " ++ toString c ++ " - " ++ r)),
            ("details", .str d)]⟩ := by
  constructor
  · simp only [lambda_handler, hm]
    rw [hh]
    simp [hs]
  · rfl

/-- C6: when the outbound call fails at the network level with message m
(connection refused, DNS failure or timeout alike), the handler returns
status 500 with `success` false, `error` equal to `Connection Error: m`
and the fixed advisory `suggestion`; a timeout differs only in m. -/
theorem C6_url_error (kvs : List (String × Json)) (m : Json)
    (hist : List Json) (em : String) (service : Json → CallOutcome)
    (hm : lookupKey kvs "message" = some m)
    (hh : (lookupKey kvs "conversationHistory").getD (.arr []) = .arr hist)
    (hs : service (request_data m) = .urlError em) :
    lambda_handler (.parsed (.obj kvs)) service = url_error_response em ∧
    url_error_response em = ⟨500, response_headers,
      .obj [("success", .bool false),
            ("error", .str ("Connection Error: " ++ em)),
            ("suggestion", .str url_error_suggestion)]⟩ := by
  constructor
  · simp only [lambda_handler, hm]
    rw [hh]
    simp [hs]
  · rfl

/-- C7: when the remote call returns 2xx and the parsed body has
`generated_text` missing or equal to the empty string, the handler
returns status 500 with the error mentioning no response content, and the
returned body carries no conversationHistory field. -/
theorem C7_empty_text (kvs : List (String × Json)) (m : Json)
    (hist : List Json) (rkvs : List (String × Json))
    (service : Json → CallOutcome)
    (hm : lookupKey kvs "message" = some m)
    (hh : (lookupKey kvs "conversationHistory").getD (.arr []) = .arr hist)
    (hs : service (request_data m) = .success (some (.obj rkvs)))
    (hg : lookupKey rkvs "generated_text" = none ∨
          lookupKey rkvs "generated_text" = some (.str "")) :
    lambda_handler (.parsed (.obj kvs)) service =
      generic_error_response "No response content from the model" ∧
    (lambda_handler (.parsed (.obj kvs)) service).statusCode = 500 ∧
    jsonGet (lambda_handler (.parsed (.obj kvs)) service).body
      "conversationHistory" = none := by
  have hmain : lambda_handler (.parsed (.obj kvs)) service =
      generic_error_response "No response content from the model" := by
    simp only [lambda_handler, hm]
    rw [hh]
    rcases hg with hg | hg <;>
      simp [hs, hg, Option.getD, Json.falsy, String.isEmpty]
  exact ⟨hmain, by rw [hmain]; rfl, by rw [hmain]; rfl⟩

/-- C8: when the event body is valid JSON without the `message` key, the
handler never reaches the outbound call (the result is the same for every
service) and returns status 500, not 400, with `success` false and some
error message, via the generic error path. -/
theorem C8_missing_message (j : Json) (s₁ s₂ : Json → CallOutcome)
    (hm : hasMessageKey j = false) :
    (∃ msg, lambda_handler (.parsed j) s₁ = generic_error_response msg) ∧
    (lambda_handler (.parsed j) s₁).statusCode = 500 ∧
    jsonGet (lambda_handler (.parsed j) s₁).body "success"
      = some (.bool false) ∧
    lambda_handler (.parsed j) s₁ = lambda_handler (.parsed j) s₂ := by
  cases j with
  | obj kvs =>
    have hnone : lookupKey kvs "message" = none := by
      cases hq : lookupKey kvs "message" with
      | none => rfl
      | some v => simp [hasMessageKey, hq] at hm
    have hmain : ∀ s : Json → CallOutcome,
        lambda_handler (.parsed (.obj kvs)) s
          = generic_error_response "'message'" := fun s => by
      simp [lambda_handler, hnone]
    exact ⟨⟨_, hmain s₁⟩, by rw [hmain s₁]; rfl, by rw [hmain s₁]; rfl,
      by rw [hmain s₁, hmain s₂]⟩
  | null => exact ⟨⟨_, rfl⟩, rfl, rfl, rfl⟩
  | bool b => exact ⟨⟨_, rfl⟩, rfl, rfl, rfl⟩
  | num q => exact ⟨⟨_, rfl⟩, rfl, rfl, rfl⟩
  | str s => exact ⟨⟨_, rfl⟩, rfl, rfl, rfl⟩
  | arr xs => exact ⟨⟨_, rfl⟩, rfl, rfl, rfl⟩

/-- C1, witness: the spec example, message `hi` with no history field and
a stub service returning `hello`. -/
theorem C1_success_witness :
    (lookupKey [("message", Json.str "hi")] "message" = some (Json.str "hi") ∧
     (lookupKey [("message", Json.str "hi")] "conversationHistory").getD
        (Json.arr []) = Json.arr [] ∧
     (fun _ => CallOutcome.success
         (some (Json.obj [("generated_text", Json.str "hello")])))
       (request_data (Json.str "hi"))
       = CallOutcome.success
           (some (Json.obj [("generated_text", Json.str "hello")])) ∧
     lookupKey [("generated_text", Json.str "hello")] "generated_text"
       = some (Json.str "hello") ∧
     ("hello" : String) ≠ "") ∧
    lambda_handler (.parsed (.obj [("message", Json.str "hi")]))
        (fun _ => .success (some (.obj [("generated_text", Json.str "hello")])))
      = success_response (Json.str "hello")
          ([] ++ [userTurn (Json.str "hi")] ++
            [assistantTurn (Json.str "hello")]) :=
  ⟨⟨rfl, rfl, rfl, rfl, by decide⟩,
    (C1_success [("message", Json.str "hi")] (Json.str "hi") [] "hello"
      [("generated_text", Json.str "hello")]
      (fun _ => .success (some (.obj [("generated_text", Json.str "hello")])))
      rfl rfl rfl rfl (by decide)).1⟩

/-- C4, witness: a request carrying both a message and a prior history
turn; the payload is the literal object built from the message alone. -/
theorem C4_payload_witness :
    (lookupKey [("message", Json.str "hi"),
        ("conversationHistory", Json.arr [userTurn (Json.str "prev")])]
        "message" = some (Json.str "hi") ∧
     (lookupKey [("message", Json.str "hi"),
        ("conversationHistory", Json.arr [userTurn (Json.str "prev")])]
        "conversationHistory").getD (Json.arr [])
        = Json.arr [userTurn (Json.str "prev")]) ∧
    outbound_payload (.parsed (.obj [("message", Json.str "hi"),
        ("conversationHistory", Json.arr [userTurn (Json.str "prev")])]))
      = some (request_data (Json.str "hi")) ∧
    request_data (Json.str "hi") = Json.obj [("prompt", Json.str "hi"),
      ("max_new_tokens", .num 512), ("temperature", .num 0.7),
      ("top_p", .num 0.9), ("do_sample", .bool true)] :=
  ⟨⟨rfl, rfl⟩,
    (C4_payload [("message", Json.str "hi"),
        ("conversationHistory", Json.arr [userTurn (Json.str "prev")])]
      (Json.str "hi") [userTurn (Json.str "prev")]
      (fun _ => .success none) (fun _ => .success none)
      rfl rfl rfl).1,
    (C4_payload [("message", Json.str "hi"),
        ("conversationHistory", Json.arr [userTurn (Json.str "prev")])]
      (Json.str "hi") [userTurn (Json.str "prev")]
      (fun _ => .success none) (fun _ => .success none)
      rfl rfl rfl).2.1⟩

/-- C5, witness: the spec example, a 503 with body `overloaded`; the
error string mentions 503 and the details equal `overloaded`. -/
theorem C5_http_error_witness :
    ((fun _ => CallOutcome.httpError 503 "Service Unavailable" "overloaded")
        (request_data (Json.str "hi"))
        = CallOutcome.httpError 503 "Service Unavailable" "overloaded") ∧
    lambda_handler (.parsed (.obj [("message", Json.str "hi")]))
        (fun _ => .httpError 503 "Service Unavailable" "overloaded")
      = http_error_response 503 "Service Unavailable" "overloaded" ∧
    jsonGet (http_error_response 503 "Service Unavailable" "overloaded").body
        "error" = some (.str "API Error: 503 - Service Unavailable") ∧
    jsonGet (http_error_response 503 "Service Unavailable" "overloaded").body
        "details" = some (.str "overloaded") :=
  ⟨rfl,
    (C5_http_error [("message", Json.str "hi")] (Json.str "hi") [] 503
      "Service Unavailable" "overloaded"
      (fun _ => .httpError 503 "Service Unavailable" "overloaded")
      rfl rfl rfl).1,
    rfl, rfl⟩

/-- C6, witness: a URLError whose message indicates a timeout. -/
theorem C6_url_error_witness :
    ((fun _ => CallOutcome.urlError "timed out")
        (request_data (Json.str "hi"))
        = CallOutcome.urlError "timed out") ∧
    lambda_handler (.parsed (.obj [("message", Json.str "hi")]))
        (fun _ => .urlError "timed out")
      = url_error_response "timed out" ∧
    jsonGet (url_error_response "timed out").body "error"
      = some (.str "Connection Error: timed out") ∧
    jsonGet (url_error_response "timed out").body "suggestion"
      = some (.str url_error_suggestion) :=
  ⟨rfl,
    (C6_url_error [("message", Json.str "hi")] (Json.str "hi") []
      "timed out" (fun _ => .urlError "timed out") rfl rfl rfl).1,
    rfl, rfl⟩

/-- C7, witness: the spec example, a stub returning an empty
`generated_text`. -/
theorem C7_empty_text_witness :
    ((fun _ => CallOutcome.success
        (some (Json.obj [("generated_text", Json.str "")])))
        (request_data (Json.str "hi"))
        = CallOutcome.success
            (some (Json.obj [("generated_text", Json.str "")])) ∧
     lookupKey [("generated_text", Json.str "")] "generated_text"
        = some (Json.str "")) ∧
    lambda_handler (.parsed (.obj [("message", Json.str "hi")]))
        (fun _ => .success (some (.obj [("generated_text", Json.str "")])))
      = generic_error_response "No response content from the model" ∧
    jsonGet (lambda_handler (.parsed (.obj [("message", Json.str "hi")]))
        (fun _ => .success (some (.obj [("generated_text", Json.str "")])))).body
      "conversationHistory" = none :=
  ⟨⟨rfl, rfl⟩,
    (C7_empty_text [("message", Json.str "hi")] (Json.str "hi") []
      [("generated_text", Json.str "")]
      (fun _ => .success (some (.obj [("generated_text", Json.str "")])))
      rfl rfl rfl (Or.inr rfl)).1,
    (C7_empty_text [("message", Json.str "hi")] (Json.str "hi") []
      [("generated_text", Json.str "")]
      (fun _ => .success (some (.obj [("generated_text", Json.str "")])))
      rfl rfl rfl (Or.inr rfl)).2.2⟩

/-- C8, witness: a body with only a `foo` key; the result is the same
under a succeeding service and a failing one. -/
theorem C8_missing_message_witness :
    hasMessageKey (Json.obj [("foo", Json.str "bar")]) = false ∧
    (lambda_handler (.parsed (.obj [("foo", Json.str "bar")]))
        (fun _ => .success none)).statusCode = 500 ∧
    lambda_handler (.parsed (.obj [("foo", Json.str "bar")]))
        (fun _ => .success none)
      = lambda_handler (.parsed (.obj [("foo", Json.str "bar")]))
        (fun _ => .urlError "refused") :=
  ⟨rfl,
    (C8_missing_message (Json.obj [("foo", Json.str "bar")])
      (fun _ => .success none) (fun _ => .urlError "refused") rfl).2.1,
    (C8_missing_message (Json.obj [("foo", Json.str "bar")])
      (fun _ => .success none) (fun _ => .urlError "refused") rfl).2.2.2⟩

/-- Exhaustive surface of the checked handler: it returns one of the four
response builders, or it escapes — and then the outbound call was reached
and answered with an HTTP error whose body read raises. -/
theorem handler_checked_shape (bp : BodyParse)
    (service : Json → CallOutcomeRaw) :
    (∃ m, lambda_handler_checked bp service
        = .ok (generic_error_response m)) ∨
    (∃ c r d, lambda_handler_checked bp service
        = .ok (http_error_response c r d)) ∨
    (∃ m, lambda_handler_checked bp service = .ok (url_error_response m)) ∨
    (∃ a msgs, lambda_handler_checked bp service
        = .ok (success_response a msgs)) ∨
    (∃ p c r, outbound_payload bp = some p ∧
      service p = CallOutcomeRaw.httpError c r none ∧
      lambda_handler_checked bp service = .error unicode_decode_error) := by
  cases bp with
  | missing => exact Or.inl ⟨_, rfl⟩
  | invalid msg => exact Or.inl ⟨_, rfl⟩
  | parsed j =>
    cases j with
    | null => exact Or.inl ⟨_, rfl⟩
    | bool b => exact Or.inl ⟨_, rfl⟩
    | num q => exact Or.inl ⟨_, rfl⟩
    | str s => exact Or.inl ⟨_, rfl⟩
    | arr xs => exact Or.inl ⟨_, rfl⟩
    | obj kvs =>
      cases hm : lookupKey kvs "message" with
      | none =>
        exact Or.inl ⟨"'message'", by simp [lambda_handler_checked, hm]⟩
      | some message =>
        cases hh : (lookupKey kvs "conversationHistory").getD (.arr []) with
        | arr conversation_history =>
          cases hsp : service (request_data message) with
          | httpError c r ob =>
            cases ob with
            | some d =>
              refine Or.inr (Or.inl ⟨c, r, d, ?_⟩)
              simp only [lambda_handler_checked, hm]
              rw [hh]
              simp [hsp]
            | none =>
              refine Or.inr (Or.inr (Or.inr (Or.inr
                ⟨request_data message, c, r, ?_, hsp, ?_⟩)))
              · simp only [outbound_payload, hm]
                rw [hh]
              · simp only [lambda_handler_checked, hm]
                rw [hh]
                simp [hsp]
          | urlError em =>
            refine Or.inr (Or.inr (Or.inl ⟨em, ?_⟩))
            simp only [lambda_handler_checked, hm]
            rw [hh]
            simp [hsp]
          | success pb =>
            cases pb with
            | none =>
              refine Or.inl ⟨"Expecting value: line 1 column 1 (char 0)", ?_⟩
              simp only [lambda_handler_checked, hm]
              rw [hh]
              simp [hsp]
            | some rb =>
              cases rb with
              | obj rkvs =>
                cases hf : ((lookupKey rkvs "generated_text").getD
                    (Json.str "")).falsy with
                | true =>
                  refine Or.inl ⟨"No response content from the model", ?_⟩
                  simp only [lambda_handler_checked, hm]
                  rw [hh]
                  simp [hsp, hf]
                | false =>
                  refine Or.inr (Or.inr (Or.inr (Or.inl
                    ⟨(lookupKey rkvs "generated_text").getD (.str ""),
                     conversation_history ++ [userTurn message] ++
                       [assistantTurn ((lookupKey rkvs "generated_text").getD
                         (.str ""))], ?_⟩)))
                  simp only [lambda_handler_checked, hm]
                  rw [hh]
                  simp [hsp, hf, List.append_assoc]
              | null =>
                exact Or.inl ⟨"'list' object has no attribute 'get'", by
                  simp only [lambda_handler_checked, hm]
                  rw [hh]
                  simp [hsp]⟩
              | bool b =>
                exact Or.inl ⟨"'list' object has no attribute 'get'", by
                  simp only [lambda_handler_checked, hm]
                  rw [hh]
                  simp [hsp]⟩
              | num q =>
                exact Or.inl ⟨"'list' object has no attribute 'get'", by
                  simp only [lambda_handler_checked, hm]
                  rw [hh]
                  simp [hsp]⟩
              | str s =>
                exact Or.inl ⟨"'list' object has no attribute 'get'", by
                  simp only [lambda_handler_checked, hm]
                  rw [hh]
                  simp [hsp]⟩
              | arr xs =>
                exact Or.inl ⟨"'list' object has no attribute 'get'", by
                  simp only [lambda_handler_checked, hm]
                  rw [hh]
                  simp [hsp]⟩
        | null =>
          exact Or.inl ⟨_, by simp only [lambda_handler_checked, hm]; rw [hh]⟩
        | bool b =>
          exact Or.inl ⟨_, by simp only [lambda_handler_checked, hm]; rw [hh]⟩
        | num q =>
          exact Or.inl ⟨_, by simp only [lambda_handler_checked, hm]; rw [hh]⟩
        | str s =>
          exact Or.inl ⟨_, by simp only [lambda_handler_checked, hm]; rw [hh]⟩
        | obj kvs₂ =>
          exact Or.inl ⟨_, by simp only [lambda_handler_checked, hm]; rw [hh]⟩

/-- Whenever the checked handler returns at all, the result carries the
fixed headers and a JSON-object body beginning with a boolean success
field. -/
theorem handler_checked_ok_shape (bp : BodyParse)
    (service : Json → CallOutcomeRaw) (res : HandlerResult)
    (h : lambda_handler_checked bp service = Except.ok res) :
    res.headers = response_headers ∧
    ∃ b rest, res.body = Json.obj (("success", Json.bool b) :: rest) := by
  rcases handler_checked_shape bp service with
    ⟨m, hq⟩ | ⟨c, r, d, hq⟩ | ⟨m, hq⟩ | ⟨a, msgs, hq⟩ | ⟨p, c, r, _, _, hq⟩ <;>
    rw [hq] at h
  · obtain rfl := Except.ok.inj h
    exact ⟨rfl, false, _, rfl⟩
  · obtain rfl := Except.ok.inj h
    exact ⟨rfl, false, _, rfl⟩
  · obtain rfl := Except.ok.inj h
    exact ⟨rfl, false, _, rfl⟩
  · obtain rfl := Except.ok.inj h
    exact ⟨rfl, true, _, rfl⟩
  · exact absurd h (by simp)

/-- The only way the checked handler escapes: the outbound call was
reached, the remote answered with an HTTP error, and the error-body read
raised; the escaping exception is the decode error. -/
theorem handler_checked_error_only (bp : BodyParse)
    (service : Json → CallOutcomeRaw) (e : String)
    (h : lambda_handler_checked bp service = Except.error e) :
    ∃ p c r, outbound_payload bp = some p ∧
      service p = CallOutcomeRaw.httpError c r none ∧
      e = unicode_decode_error := by
  rcases handler_checked_shape bp service with
    ⟨m, hq⟩ | ⟨c, r, d, hq⟩ | ⟨m, hq⟩ | ⟨a, msgs, hq⟩ |
    ⟨p, c, r, hpay, hserv, hq⟩ <;> rw [hq] at h
  · exact absurd h (by simp)
  · exact absurd h (by simp)
  · exact absurd h (by simp)
  · exact absurd h (by simp)
  · exact ⟨p, c, r, hpay, hserv, (Except.error.inj h).symm⟩

/-- On every outcome whose error-body read succeeds, the checked handler
agrees with `lambda_handler` applied to the decoded view: the two models
differ only on the escaping path. -/
theorem handler_checked_refines (bp : BodyParse)
    (s : Json → CallOutcomeRaw) (t : Json → CallOutcome)
    (h : ∀ p, decodeOutcome (s p) = some (t p)) :
    lambda_handler_checked bp s = Except.ok (lambda_handler bp t) := by
  cases bp with
  | missing => rfl
  | invalid msg => rfl
  | parsed j =>
    cases j with
    | null => rfl
    | bool b => rfl
    | num q => rfl
    | str s₀ => rfl
    | arr xs => rfl
    | obj kvs =>
      cases hm : lookupKey kvs "message" with
      | none => simp [lambda_handler_checked, lambda_handler, hm]
      | some message =>
        cases hh : (lookupKey kvs "conversationHistory").getD (.arr []) with
        | arr conversation_history =>
          have hp := h (request_data message)
          cases hsp : s (request_data message) with
          | success pb =>
            rw [hsp] at hp
            simp only [decodeOutcome] at hp
            have ht : t (request_data message) = .success pb :=
              (Option.some.inj hp).symm
            simp only [lambda_handler_checked, lambda_handler, hm]
            rw [hh, hsp, ht]
            cases pb with
            | none => rfl
            | some rb =>
              cases rb with
              | obj rkvs =>
                cases hf : ((lookupKey rkvs "generated_text").getD
                    (Json.str "")).falsy <;> simp [hf]
              | null => rfl
              | bool b => rfl
              | num q => rfl
              | str s₁ => rfl
              | arr xs => rfl
          | httpError c r ob =>
            rw [hsp] at hp
            cases ob with
            | some d =>
              simp only [decodeOutcome] at hp
              have ht : t (request_data message) = .httpError c r d :=
                (Option.some.inj hp).symm
              simp only [lambda_handler_checked, lambda_handler, hm]
              rw [hh, hsp, ht]
            | none => simp [decodeOutcome] at hp
          | urlError em =>
            rw [hsp] at hp
            simp only [decodeOutcome] at hp
            have ht : t (request_data message) = .urlError em :=
              (Option.some.inj hp).symm
            simp only [lambda_handler_checked, lambda_handler, hm]
            rw [hh, hsp, ht]
        | null => simp only [lambda_handler_checked, lambda_handler, hm]; rw [hh]
        | bool b => simp only [lambda_handler_checked, lambda_handler, hm]; rw [hh]
        | num q => simp only [lambda_handler_checked, lambda_handler, hm]; rw [hh]
        | str s₁ => simp only [lambda_handler_checked, lambda_handler, hm]; rw [hh]
        | obj kvs₂ => simp only [lambda_handler_checked, lambda_handler, hm]; rw [hh]

/-- C2: the code-bug record.  The `except HTTPError` clause of the source
runs `error.read().decode('utf-8')` (index.py line 118); an exception
raised inside an except clause is not caught by the sibling clauses of the
same try statement, so on a non-2xx reply whose body bytes are not valid
UTF-8 the `UnicodeDecodeError` escapes `lambda_handler`, against the claim
that every outcome yields a normal structured return.  At the failing
input — a parsed body carrying a message, and a 503 whose body read
raises — the checked handler escapes instead of returning; whenever it
does return, the result carries the fixed CORS headers and a JSON-object
body with a boolean success field; and the undecodable HTTP error body is
the only escaping path. -/
theorem C2_decode_escape :
    lambda_handler_checked (.parsed (.obj [("message", Json.str "hi")]))
        (fun _ => .httpError 503 "Service Unavailable" none)
      = Except.error unicode_decode_error ∧
    (∀ (bp : BodyParse) (service : Json → CallOutcomeRaw)
        (res : HandlerResult),
      lambda_handler_checked bp service = Except.ok res →
      res.headers = response_headers ∧
      ∃ b rest, res.body = Json.obj (("success", Json.bool b) :: rest)) ∧
    (∀ (bp : BodyParse) (service : Json → CallOutcomeRaw) (e : String),
      lambda_handler_checked bp service = Except.error e →
      ∃ p c r, outbound_payload bp = some p ∧
        service p = CallOutcomeRaw.httpError c r none ∧
        e = unicode_decode_error) :=
  ⟨rfl, handler_checked_ok_shape, handler_checked_error_only⟩
